import Mathlib

/-!
Verification of the Agentic RAG System's natural-language specification
against the repository's code.

The repository ships two React frontends (`frontend/src/App.tsx` and
`rag-frontend/src/App.tsx` with its components) together with markdown
documentation of the Python backend (chunker, token guard, embedding
client, vector store, retriever).  The backend sources themselves are not
part of the checked tree, so the backend operations are modelled from the
specification (and from `CSV_TIMEOUT_FIX.md`, which documents the token
guard's constants and algorithm); every such definition is marked
"Modelled from the spec".  Frontend functions are translated directly
from the TypeScript source.

Text is modelled as `List Char` (JavaScript/Python strings), machine
floats used for similarity scores are modelled as exact integers
(`Int`), and the floating-point `Math.log`-based unit index of
`formatFileSize` is modelled by the exact integer logarithm `Nat.log`,
which agrees with `Math.floor (Math.log bytes / Math.log 1024)` for all
byte counts in the claimed range.
-/

/-! ## Token Guard (spec §4.2, `CSV_TIMEOUT_FIX.md` lines 45-62) -/

/-- Modelled from the spec: constant `CHARS_PER_TOKEN = 4` of
`backend/services/csv_processor.py`, documented in
`CSV_TIMEOUT_FIX.md` ("Added constants: MAX_EMBEDDING_TOKENS = 8000,
CHARS_PER_TOKEN = 4"); the backend source is absent from the tree. -/
def CHARS_PER_TOKEN : Nat := 4

/-- Modelled from the spec: constant `MAX_EMBEDDING_TOKENS = 8000` of
`backend/services/csv_processor.py` (default token ceiling), documented
in `CSV_TIMEOUT_FIX.md`; the backend source is absent from the tree. -/
def MAX_EMBEDDING_TOKENS : Nat := 8000

/-- Modelled from the spec: the marker appended by truncation
("truncated with message", `CSV_TIMEOUT_FIX.md`; "an appended marker
indicating truncation occurred", spec §4.2). -/
def truncationMessage : List Char := "... [truncated]".data

/-- Modelled from the spec: token estimation of
`backend/services/embeddings_service.py` ("Estimates tokens
(length / 4)", `CSV_TIMEOUT_FIX.md`); the backend source is absent
from the tree. -/
def estimatedTokens (text : List Char) : Nat :=
  text.length / CHARS_PER_TOKEN

/-- Modelled from the spec: `truncate_text(text, max_chars)` of
`backend/services/csv_processor.py` ("Truncation is a hard cut at the
computed character boundary, with an appended marker", spec §4.2);
the backend source is absent from the tree.  Texts within the bound are
returned unchanged; oversized texts are cut so that the result,
including the appended marker, fits in `maxChars` characters. -/
def truncate_text (maxChars : Nat) (text : List Char) : List Char :=
  if text.length ≤ maxChars then text
  else text.take (maxChars - truncationMessage.length) ++ truncationMessage

/-- Modelled from the spec: the Token Guard's `bound(text)` (spec §4.2):
if the estimated token count is within the configured ceiling the text
passes unchanged, otherwise it is truncated to the character budget
`ceiling * CHARS_PER_TOKEN` ("Auto-truncates if more than 8000 tokens
estimated", `CSV_TIMEOUT_FIX.md`). -/
def bound (ceiling : Nat) (text : List Char) : List Char :=
  if estimatedTokens text ≤ ceiling then text
  else truncate_text (ceiling * CHARS_PER_TOKEN) text

/-! ## Vector Store (spec §4.4) and Retriever (spec §4.5) -/

/-- Modelled from the spec: an Embedding Record of the Vector Store
(spec §3): chunk identifier, metadata referencing the source file,
the stored vector and chunk text.  Vector components and similarity
scores are modelled as exact integers in place of machine floats. -/
structure EmbeddingRecord where
  id : Nat
  fileId : Nat
  vector : List Int
  text : String
  classification : String
deriving DecidableEq

/-- Modelled from the spec: a single-record upsert of the Vector Store
(spec §4.4): the record stored under the same chunk identifier, if any,
is replaced by the new record; no duplicate entries accumulate. -/
def upsertOne (store : List EmbeddingRecord) (r : EmbeddingRecord) :
    List EmbeddingRecord :=
  store.filter (fun s => s.id ≠ r.id) ++ [r]

/-- Modelled from the spec: `upsert(records)` of the Vector Store
(spec §4.4), applied record by record. -/
def upsert (store : List EmbeddingRecord) (records : List EmbeddingRecord) :
    List EmbeddingRecord :=
  records.foldl upsertOne store

/-- Modelled from the spec: `delete_by_file(file_id)` of the Vector
Store (spec §4.4): removes every Embedding Record whose metadata
references the file identifier. -/
def delete_by_file (store : List EmbeddingRecord) (fid : Nat) :
    List EmbeddingRecord :=
  store.filter (fun r => r.fileId ≠ fid)

/-- Modelled from the spec: a scored query result of the Vector Store
(spec §4.4): the record's chunk identifier, file reference and text
together with its similarity score. -/
structure ScoredRecord where
  id : Nat
  fileId : Nat
  text : String
  score : Int
deriving DecidableEq

/-- Modelled from the spec: the store's similarity metric, declared as
the inner product (spec §4.4 "cosine or inner-product, whichever the
backing index uses"). -/
def dot : List Int → List Int → Int
  | [], _ => 0
  | _, [] => 0
  | a :: as, b :: bs => a * b + dot as bs

/-- Modelled from the spec: scoring one stored record against an
embedded query vector. -/
def scoreRecord (q : List Int) (r : EmbeddingRecord) : ScoredRecord :=
  { id := r.id, fileId := r.fileId, text := r.text, score := dot q r.vector }

/-- Modelled from the spec: the retrieval ordering (spec §4.5):
descending similarity score, ties broken by ascending chunk
identifier. -/
def rankLE (a b : ScoredRecord) : Prop :=
  b.score < a.score ∨ (b.score = a.score ∧ a.id ≤ b.id)

instance rankLE.decidableRel : DecidableRel rankLE := fun a b => by
  unfold rankLE
  infer_instance

/-- Modelled from the spec: `query(vector, k)` of the Vector Store
composed with the Retriever's ordering (spec §4.4-4.5): every stored
record is scored against the query vector, the results are sorted by
descending score with ties broken by chunk identifier, and the first
`k` are returned. -/
def vsQuery (store : List EmbeddingRecord) (q : List Int) (k : Nat) :
    List ScoredRecord :=
  (List.insertionSort rankLE (store.map (scoreRecord q))).take k

/-- Modelled from the spec: `retrieve(query_text, k)` (spec §4.5)
embeds the query and asks the Vector Store; with the embedding of the
query text given as a vector, it is the store query itself. -/
def retrieve (store : List EmbeddingRecord) (queryVec : List Int) (k : Nat) :
    List ScoredRecord :=
  vsQuery store queryVec k

/-! ## Health check (spec §4.7; `rag-frontend/src/App.tsx`,
`rag-frontend/src/components/StatusPanel.tsx`, `frontend/src/App.tsx`) -/

/-- System status as displayed by the frontends: three booleans plus a
message (`SystemStatus` in `rag-frontend/src/App.tsx` lines 29-34). -/
structure SystemStatus where
  overall : Bool
  vectordb : Bool
  llm : Bool
  message : String
deriving DecidableEq

/-- Modelled from the spec: the backend `/files/health` aggregation
(spec §4.7): vector-store health and language-model reachability as
independent booleans, overall their logical AND, plus a message; the
backend source is absent from the tree. -/
def filesHealth (vectordb llm : Bool) : SystemStatus :=
  { overall := vectordb && llm
    vectordb := vectordb
    llm := llm
    message := if vectordb && llm then "RAG service healthy" else "RAG service degraded" }

/-- The frontend status check (`checkSystemStatus` in
`rag-frontend/src/App.tsx` lines 137-159 and `checkStatus` in
`StatusPanel.tsx` lines 19-45): on success the three booleans are taken
from the `/files/health` response and the message from `/health`; when
the request fails every boolean is reported false. -/
def checkStatus (resp : Option (SystemStatus × String)) : SystemStatus :=
  match resp with
  | some (fh, msg) =>
      { overall := fh.overall, vectordb := fh.vectordb, llm := fh.llm, message := msg }
  | none =>
      { overall := false, vectordb := false, llm := false, message := "Status check failed" }

/-! ## Chat messages and query responses (`rag-frontend/src/App.tsx`) -/

/-- Message sender, `'user' | 'assistant'` in `rag-frontend/src/App.tsx`. -/
inductive MsgType
  | user
  | assistant
deriving DecidableEq

/-- A chat message of `rag-frontend/src/App.tsx` (lines 4-10): content
plus the optional `contextCount` carried on assistant messages. -/
structure ChatMessage where
  type : MsgType
  content : String
  contextCount : Option Nat
deriving DecidableEq

/-- The assistant message built from a chat response
(`rag-frontend/src/App.tsx` lines 66-72): the answer text and the
response's `context_count`. -/
def mkAssistantMessage (answer : String) (context_count : Nat) : ChatMessage :=
  { type := MsgType.assistant, content := answer, contextCount := some context_count }

/-- The render condition of the sources badge
(`rag-frontend/src/App.tsx` line 234):
`message.contextCount !== undefined && message.contextCount > 0`. -/
def showsSourcesBadge (m : ChatMessage) : Bool :=
  match m.contextCount with
  | some n => decide (0 < n)
  | none => false

/-! ## Chat form submission guards (`rag-frontend/src/App.tsx` lines
36-49, `frontend/src/App.tsx` lines 91-104) -/

/-- JavaScript `String.prototype.trim` on the character-list model of
strings: leading and trailing whitespace removed. -/
def trimChars (l : List Char) : List Char :=
  ((l.dropWhile Char.isWhitespace).reverse.dropWhile Char.isWhitespace).reverse

/-- State touched by `handleSubmit` in `rag-frontend/src/App.tsx`:
the controlled input, the loading flag and the message list (message
contents only). -/
structure RagChatState where
  input : List Char
  isLoading : Bool
  messages : List (List Char)
deriving DecidableEq

/-- The `handleSubmit` handler of `rag-frontend/src/App.tsx` lines
36-49: `if (!input.trim() || isLoading) return`; otherwise the trimmed
input is appended as a user message, the input cleared, loading set,
and a POST body with the trimmed query issued (returned as the second
component; `none` means no network request). -/
def handleSubmit (s : RagChatState) : RagChatState × Option (List Char) :=
  if trimChars s.input = [] ∨ s.isLoading = true then (s, none)
  else
    ({ input := [], isLoading := true,
       messages := s.messages ++ [trimChars s.input] },
     some (trimChars s.input))

/-- State touched by `handleChatSubmit` in `frontend/src/App.tsx`. -/
structure FrontChatState where
  chatInput : List Char
  isChatLoading : Bool
  messages : List (List Char)
deriving DecidableEq

/-- The `handleChatSubmit` handler of `frontend/src/App.tsx` lines
91-104: `if (chatInput.trim() === '') return`; otherwise the raw input
is appended as a user message, the input cleared, loading set, and the
query issued. -/
def handleChatSubmit (s : FrontChatState) : FrontChatState × Option (List Char) :=
  if trimChars s.chatInput = [] then (s, none)
  else
    ({ chatInput := [], isChatLoading := true,
       messages := s.messages ++ [s.chatInput] },
     some s.chatInput)

/-- The chat form of `frontend/src/App.tsx` lines 237-248: both the
text input and the send button carry `disabled={isChatLoading}`, so the
submit event cannot fire while a query is loading; when it can fire it
runs `handleChatSubmit`. -/
def chatFormSubmit (s : FrontChatState) : FrontChatState × Option (List Char) :=
  if s.isChatLoading = true then (s, none)
  else handleChatSubmit s

/-! ## Upload handling (`frontend/src/App.tsx` lines 128-172,
`rag-frontend/src/App.tsx` lines 89-135) -/

/-- Upload status of `frontend/src/App.tsx` (line 58). -/
inductive FileStatus
  | pending
  | success
  | error
deriving DecidableEq

/-- An `UploadedFile` entry of `frontend/src/App.tsx` lines 54-62. -/
structure UploadedFile where
  id : String
  name : String
  size : Nat
  status : FileStatus
  chunks : Nat
  fileId : Option String
  error : Option String
deriving DecidableEq

/-- The success update of `handleFileUpload` in `frontend/src/App.tsx`
lines 146-152: the entry whose temporary id matches becomes
`success` with `chunks = result.total_chunks ?? 0` and
`fileId = result.file_id`; every other entry is mapped to itself. -/
def applyUploadSuccess (tempId : String) (total_chunks : Option Nat)
    (file_id : String) (l : List UploadedFile) : List UploadedFile :=
  l.map fun f =>
    if f.id = tempId then
      { f with status := FileStatus.success, chunks := total_chunks.getD 0,
               fileId := some file_id }
    else f

/-- The error update of `handleFileUpload` in `frontend/src/App.tsx`
lines 154-160: the entry whose temporary id matches becomes `error`
with `error = error?.message || 'Upload failed'`; every other entry is
mapped to itself. -/
def applyUploadError (tempId : String) (message : Option String)
    (l : List UploadedFile) : List UploadedFile :=
  l.map fun f =>
    if f.id = tempId then
      { f with status := FileStatus.error, error := some (message.getD "Upload failed") }
    else f

/-- The delete handler `handleDeleteFile` of `frontend/src/App.tsx`
lines 165-172: on backend success the file list is filtered with
`prev.filter(f => f.fileId !== fileId)`; entries whose `fileId` is
`null` never compare equal to a string and are kept. -/
def handleDeleteFile (fileId : String) (l : List UploadedFile) : List UploadedFile :=
  l.filter (fun f => f.fileId ≠ some fileId)

/-- A browser `File` as seen by the upload handlers: name, MIME type
and byte size. -/
structure BrowserFile where
  name : String
  mimeType : String
  size : Nat
deriving DecidableEq

/-- Upload status of `rag-frontend/src/App.tsx` (line 16). -/
inductive RagFileStatus
  | uploading
  | success
  | error
deriving DecidableEq

/-- A file-list entry created by `handleFileUpload` in
`rag-frontend/src/App.tsx` lines 93-100. -/
structure RagUploadEntry where
  name : String
  size : Nat
  status : RagFileStatus
deriving DecidableEq

/-- The entry construction of `handleFileUpload` in
`rag-frontend/src/App.tsx` lines 93-102: the selected files are
filtered with `file.type === 'application/pdf'` and only the survivors
become `uploading` entries (each of which then gets a POST to
`/files/add_file`); any file of a different MIME type, CSV included,
is dropped with no entry and no request. -/
def newUploadEntries (selected : List BrowserFile) : List RagUploadEntry :=
  (selected.filter (fun f => f.mimeType = "application/pdf")).map
    (fun f => { name := f.name, size := f.size, status := RagFileStatus.uploading })

/-! ## File size formatting (`rag-frontend/src/App.tsx` lines 161-167) -/

/-- The unit array `sizes` of `formatFileSize` in
`rag-frontend/src/App.tsx` line 164. -/
def fileSizeUnits : List String := ["Bytes", "KB", "MB", "GB"]

/-- The unit index `i = Math.floor(Math.log(bytes) / Math.log(1024))`
of `formatFileSize` (`rag-frontend/src/App.tsx` line 165), modelled by
the exact integer logarithm: for every positive byte count the real
number `Math.log bytes / Math.log 1024` has floor `Nat.log 1024 bytes`. -/
def unitIndex (bytes : Nat) : Nat := Nat.log 1024 bytes

/-- The numeric part `parseFloat((bytes / Math.pow(k, i)).toFixed(2))`
of `formatFileSize` (`rag-frontend/src/App.tsx` line 166), modelled as
the exact rational scaled value rounded to two decimal places. -/
def sizeMantissa (bytes i : Nat) : ℚ :=
  (⌊(bytes : ℚ) / (1024 : ℚ) ^ i * 100 + 1 / 2⌋ : ℚ) / 100

/-- The `formatFileSize` function of `rag-frontend/src/App.tsx` lines
161-167 (also `rag-frontend/src/lib/utils.ts` as used by
`FileUpload.tsx`): zero maps to `"0 Bytes"`, otherwise the scaled value
and the unit selected by the logarithmic index, the unit read from the
array (out-of-range indices, which line 165 would render as
`undefined`, are modelled by the empty default). -/
def formatFileSize (bytes : Nat) : String :=
  if bytes = 0 then "0 Bytes"
  else toString (sizeMantissa bytes (unitIndex bytes)) ++ " " ++
    (fileSizeUnits.getD (unitIndex bytes) "")

/-! ## Theorems -/

/-- Texts already within the ceiling pass the Token Guard unchanged. -/
theorem bound_eq_self_of_le (ceiling : Nat) (t : List Char)
    (hle : estimatedTokens t ≤ ceiling) : bound ceiling t = t := by
  unfold bound
  rw [if_pos hle]

/-- The Token Guard's output always estimates to at most the ceiling,
provided the truncation marker itself fits in the character budget. -/
theorem estimatedTokens_bound_le (ceiling : Nat) (text : List Char)
    (h : truncationMessage.length ≤ ceiling * CHARS_PER_TOKEN) :
    estimatedTokens (bound ceiling text) ≤ ceiling := by
  unfold bound
  split
  · rename_i hle
    exact hle
  · rename_i hgt
    unfold truncate_text
    split
    · rename_i hlen
      unfold estimatedTokens CHARS_PER_TOKEN at *
      omega
    · rename_i hlen
      unfold estimatedTokens CHARS_PER_TOKEN at *
      simp only [List.length_append, List.length_take]
      omega

/-- C1: for every input text, the Token Guard's `bound(text)` returns a
text whose estimated token count is at most the configured ceiling;
`bound` is idempotent (`bound (bound text) = bound text`); and it is a
pure deterministic function, so equal inputs under equal ceilings yield
equal outputs.  The only proviso is that the fixed truncation marker
fits in the configured character budget (true for the shipped
configuration, see the witness). -/
theorem tokenGuard_bound_le_ceiling_and_idempotent (ceiling : Nat) (text : List Char)
    (h : truncationMessage.length ≤ ceiling * CHARS_PER_TOKEN) :
    estimatedTokens (bound ceiling text) ≤ ceiling ∧
    bound ceiling (bound ceiling text) = bound ceiling text ∧
    (∀ text2, text2 = text → bound ceiling text2 = bound ceiling text) := by
  refine ⟨estimatedTokens_bound_le ceiling text h, ?_, ?_⟩
  · exact bound_eq_self_of_le ceiling (bound ceiling text)
      (estimatedTokens_bound_le ceiling text h)
  · intro text2 ht
    rw [ht]

/-- Witness for C1 at the shipped configuration (ceiling 8000 tokens,
4 characters per token). -/
theorem tokenGuard_bound_witness :
    estimatedTokens (bound MAX_EMBEDDING_TOKENS "hello world".data) ≤ MAX_EMBEDDING_TOKENS ∧
    bound MAX_EMBEDDING_TOKENS (bound MAX_EMBEDDING_TOKENS "hello world".data) =
      bound MAX_EMBEDDING_TOKENS "hello world".data ∧
    (∀ text2, text2 = "hello world".data →
      bound MAX_EMBEDDING_TOKENS text2 = bound MAX_EMBEDDING_TOKENS "hello world".data) :=
  tokenGuard_bound_le_ceiling_and_idempotent MAX_EMBEDDING_TOKENS "hello world".data (by decide)

/-- C2: upserting two records with the same chunk identifier leaves
exactly one record stored under that identifier — the most recently
upserted one, vector and metadata included — and every record with a
different identifier already in the store is still there. -/
theorem upsert_idempotent_per_id (store : List EmbeddingRecord)
    (r₁ r₂ : EmbeddingRecord) (hid : r₁.id = r₂.id) :
    (upsert store [r₁, r₂]).filter (fun s => s.id = r₂.id) = [r₂] ∧
    (∀ s ∈ store, s.id ≠ r₂.id → s ∈ upsert store [r₁, r₂]) := by
  have hrw : upsert store [r₁, r₂] =
      ((store.filter (fun s => s.id ≠ r₁.id) ++ [r₁]).filter
        (fun s => s.id ≠ r₂.id)) ++ [r₂] := rfl
  have hperp : ∀ l : List EmbeddingRecord,
      List.filter (fun s => s.id = r₂.id)
        (List.filter (fun s => s.id ≠ r₂.id) l) = [] := by
    intro l
    rw [List.filter_eq_nil_iff]
    intro a ha
    have h2 := (List.mem_filter.mp ha).2
    simp only [decide_eq_true_eq] at h2 ⊢
    exact h2
  constructor
  · rw [hrw, List.filter_append, hperp, List.nil_append]
    simp
  · intro s hs hne
    rw [hrw]
    refine List.mem_append_left _ (List.mem_filter.mpr ⟨List.mem_append_left _ ?_, ?_⟩)
    · refine List.mem_filter.mpr ⟨hs, ?_⟩
      simp only [decide_eq_true_eq]
      rw [hid]
      exact hne
    · simp only [decide_eq_true_eq]
      exact hne

/-- Witness for C2: two records sharing identifier 7 with different
vectors; the store keeps exactly the second. -/
theorem upsert_idempotent_witness :
    (upsert [EmbeddingRecord.mk 3 1 [5, 5] "old" "row"]
        [EmbeddingRecord.mk 7 1 [1, 2] "a" "row",
         EmbeddingRecord.mk 7 1 [9, 9] "b" "row"]).filter
      (fun s => s.id = (EmbeddingRecord.mk 7 1 [9, 9] "b" "row").id) =
      [EmbeddingRecord.mk 7 1 [9, 9] "b" "row"] ∧
    (∀ s ∈ [EmbeddingRecord.mk 3 1 [5, 5] "old" "row"],
      s.id ≠ (EmbeddingRecord.mk 7 1 [9, 9] "b" "row").id →
      s ∈ upsert [EmbeddingRecord.mk 3 1 [5, 5] "old" "row"]
        [EmbeddingRecord.mk 7 1 [1, 2] "a" "row",
         EmbeddingRecord.mk 7 1 [9, 9] "b" "row"]) :=
  upsert_idempotent_per_id [EmbeddingRecord.mk 3 1 [5, 5] "old" "row"]
    (EmbeddingRecord.mk 7 1 [1, 2] "a" "row")
    (EmbeddingRecord.mk 7 1 [9, 9] "b" "row") rfl

/-- Every record returned by a store query is the scoring of some
stored record: the query never fabricates entries. -/
theorem mem_vsQuery (store : List EmbeddingRecord) (q : List Int) (k : Nat) :
    ∀ sr ∈ vsQuery store q k, ∃ r ∈ store, sr = scoreRecord q r := by
  intro sr hsr
  have h1 : sr ∈ List.insertionSort rankLE (store.map (scoreRecord q)) :=
    List.mem_of_mem_take hsr
  have h2 : sr ∈ store.map (scoreRecord q) :=
    (List.perm_insertionSort rankLE (store.map (scoreRecord q))).mem_iff.mp h1
  obtain ⟨r, hr, hrq⟩ := List.mem_map.mp h2
  exact ⟨r, hr, hrq.symm⟩

/-- C3: deleting a file identifier removes every stored record whose
metadata references it and keeps every other record, so a subsequent
query returns zero records referencing the file; and in the frontend
the deletion handler removes exactly the list entries whose `fileId`
equals the deleted identifier, leaving all other entries in place. -/
theorem delete_by_file_complete_and_framed (store : List EmbeddingRecord)
    (fid : Nat) (q : List Int) (k : Nat)
    (l : List UploadedFile) (fidF : String) :
    (delete_by_file store fid).filter (fun r => r.fileId = fid) = [] ∧
    (∀ r ∈ delete_by_file store fid, r ∈ store ∧ r.fileId ≠ fid) ∧
    (∀ r ∈ store, r.fileId ≠ fid → r ∈ delete_by_file store fid) ∧
    (∀ sr ∈ vsQuery (delete_by_file store fid) q k, sr.fileId ≠ fid) ∧
    (∀ e ∈ handleDeleteFile fidF l, e ∈ l ∧ e.fileId ≠ some fidF) ∧
    (∀ e ∈ l, e.fileId ≠ some fidF → e ∈ handleDeleteFile fidF l) := by
  refine ⟨?_, ?_, ?_, ?_, ?_, ?_⟩
  · rw [List.filter_eq_nil_iff]
    intro r hr
    have h2 := (List.mem_filter.mp hr).2
    simp only [decide_eq_true_eq] at h2 ⊢
    exact h2
  · intro r hr
    have h := List.mem_filter.mp hr
    simp only [decide_eq_true_eq] at h
    exact h
  · intro r hr hne
    refine List.mem_filter.mpr ⟨hr, ?_⟩
    simp only [decide_eq_true_eq]
    exact hne
  · intro sr hsr
    obtain ⟨r, hr, hrq⟩ := mem_vsQuery (delete_by_file store fid) q k sr hsr
    have h := List.mem_filter.mp hr
    simp only [decide_eq_true_eq] at h
    rw [hrq]
    exact h.2
  · intro e he
    have h := List.mem_filter.mp he
    simp only [decide_eq_true_eq] at h
    exact h
  · intro e he hne
    refine List.mem_filter.mpr ⟨he, ?_⟩
    simp only [decide_eq_true_eq]
    exact hne

/-- Witness for C3 on a concrete two-record store and a two-entry
frontend file list. -/
theorem delete_by_file_witness :
    (delete_by_file [EmbeddingRecord.mk 1 5 [1] "a" "row",
        EmbeddingRecord.mk 2 6 [2] "b" "row"] 5).filter
      (fun r => r.fileId = 5) = [] ∧
    EmbeddingRecord.mk 2 6 [2] "b" "row" ∈
      delete_by_file [EmbeddingRecord.mk 1 5 [1] "a" "row",
        EmbeddingRecord.mk 2 6 [2] "b" "row"] 5 ∧
    UploadedFile.mk "u2" "b.pdf" 9 FileStatus.success 3 (some "f6") none ∈
      handleDeleteFile "f5"
        [UploadedFile.mk "u1" "a.pdf" 7 FileStatus.success 2 (some "f5") none,
         UploadedFile.mk "u2" "b.pdf" 9 FileStatus.success 3 (some "f6") none] :=
  ⟨(delete_by_file_complete_and_framed
      [EmbeddingRecord.mk 1 5 [1] "a" "row", EmbeddingRecord.mk 2 6 [2] "b" "row"]
      5 [1] 2
      [UploadedFile.mk "u1" "a.pdf" 7 FileStatus.success 2 (some "f5") none,
       UploadedFile.mk "u2" "b.pdf" 9 FileStatus.success 3 (some "f6") none]
      "f5").1,
   (delete_by_file_complete_and_framed
      [EmbeddingRecord.mk 1 5 [1] "a" "row", EmbeddingRecord.mk 2 6 [2] "b" "row"]
      5 [1] 2
      [UploadedFile.mk "u1" "a.pdf" 7 FileStatus.success 2 (some "f5") none,
       UploadedFile.mk "u2" "b.pdf" 9 FileStatus.success 3 (some "f6") none]
      "f5").2.2.1 (EmbeddingRecord.mk 2 6 [2] "b" "row") (by decide) (by decide),
   (delete_by_file_complete_and_framed
      [EmbeddingRecord.mk 1 5 [1] "a" "row", EmbeddingRecord.mk 2 6 [2] "b" "row"]
      5 [1] 2
      [UploadedFile.mk "u1" "a.pdf" 7 FileStatus.success 2 (some "f5") none,
       UploadedFile.mk "u2" "b.pdf" 9 FileStatus.success 3 (some "f6") none]
      "f5").2.2.2.2.2
     (UploadedFile.mk "u2" "b.pdf" 9 FileStatus.success 3 (some "f6") none)
     (by decide) (by decide)⟩

/-- The retrieval rank relation is total: any two scored records are
comparable under descending score with identifier tie-break. -/
theorem rankLE_total (a b : ScoredRecord) : rankLE a b ∨ rankLE b a := by
  unfold rankLE
  rcases lt_trichotomy a.score b.score with h | h | h
  · exact Or.inr (Or.inl h)
  · rcases Nat.le_total a.id b.id with hid | hid
    · exact Or.inl (Or.inr ⟨h.symm, hid⟩)
    · exact Or.inr (Or.inr ⟨h, hid⟩)
  · exact Or.inl (Or.inl h)

/-- The retrieval rank relation is transitive. -/
theorem rankLE_trans (a b c : ScoredRecord) :
    rankLE a b → rankLE b c → rankLE a c := by
  unfold rankLE
  intro hab hbc
  rcases hab with h1 | ⟨h1, h1id⟩
  · rcases hbc with h2 | ⟨h2, _⟩
    · exact Or.inl (lt_trans h2 h1)
    · refine Or.inl ?_
      rw [h2]
      exact h1
  · rcases hbc with h2 | ⟨h2, h2id⟩
    · refine Or.inl ?_
      rw [← h1]
      exact h2
    · exact Or.inr ⟨h2.trans h1, le_trans h1id h2id⟩

/-- C4: for every store state, query vector and k, the sequence
returned by `retrieve` is ordered by non-increasing similarity score,
ties in score are broken by ascending chunk identifier, and the result
is a deterministic function of the store state, query and k. -/
theorem retrieve_sorted_desc_with_tiebreak (store : List EmbeddingRecord)
    (q : List Int) (k : Nat) :
    (retrieve store q k).Pairwise
      (fun a b => b.score ≤ a.score ∧ (b.score = a.score → a.id ≤ b.id)) ∧
    (∀ store2 q2 k2, store2 = store → q2 = q → k2 = k →
      retrieve store2 q2 k2 = retrieve store q k) := by
  constructor
  · haveI : IsTotal ScoredRecord rankLE := ⟨rankLE_total⟩
    haveI : IsTrans ScoredRecord rankLE := ⟨rankLE_trans⟩
    have hs : (List.insertionSort rankLE (store.map (scoreRecord q))).Pairwise rankLE :=
      List.sorted_insertionSort rankLE (store.map (scoreRecord q))
    have ht : (retrieve store q k).Pairwise rankLE :=
      hs.sublist (List.take_sublist k (List.insertionSort rankLE (store.map (scoreRecord q))))
    refine ht.imp ?_
    intro a b hab
    rcases hab with h | ⟨h, hid⟩
    · refine ⟨le_of_lt h, ?_⟩
      intro heq
      rw [heq] at h
      exact absurd h (lt_irrefl a.score)
    · exact ⟨le_of_eq h, fun _ => hid⟩
  · intro store2 q2 k2 h1 h2 h3
    rw [h1, h2, h3]

/-- Witness for C4 on a concrete store whose two records tie in score. -/
theorem retrieve_sorted_witness :
    (retrieve [EmbeddingRecord.mk 2 1 [1, 0] "b" "row",
        EmbeddingRecord.mk 1 1 [1, 0] "a" "row"] [3, 4] 2).Pairwise
      (fun a b => b.score ≤ a.score ∧ (b.score = a.score → a.id ≤ b.id)) ∧
    retrieve [EmbeddingRecord.mk 2 1 [1, 0] "b" "row",
        EmbeddingRecord.mk 1 1 [1, 0] "a" "row"] [3, 4] 2 =
      retrieve [EmbeddingRecord.mk 2 1 [1, 0] "b" "row",
        EmbeddingRecord.mk 1 1 [1, 0] "a" "row"] [3, 4] 2 :=
  ⟨(retrieve_sorted_desc_with_tiebreak
      [EmbeddingRecord.mk 2 1 [1, 0] "b" "row",
       EmbeddingRecord.mk 1 1 [1, 0] "a" "row"] [3, 4] 2).1,
   (retrieve_sorted_desc_with_tiebreak
      [EmbeddingRecord.mk 2 1 [1, 0] "b" "row",
       EmbeddingRecord.mk 1 1 [1, 0] "a" "row"] [3, 4] 2).2
     [EmbeddingRecord.mk 2 1 [1, 0] "b" "row",
      EmbeddingRecord.mk 1 1 [1, 0] "a" "row"] [3, 4] 2 rfl rfl rfl⟩

/-- C5: every health check reports three booleans plus a message;
`overall` equals the logical AND of the vector-store and language-model
booleans (so it is false whenever either dependency is false), and a
failed health-check request is reported with all three booleans
false. -/
theorem health_overall_is_and (vdb llm : Bool) (msg : String) :
    ((checkStatus (some (filesHealth vdb llm, msg))).overall =
      ((checkStatus (some (filesHealth vdb llm, msg))).vectordb &&
        (checkStatus (some (filesHealth vdb llm, msg))).llm)) ∧
    (checkStatus (some (filesHealth vdb llm, msg))).vectordb = vdb ∧
    (checkStatus (some (filesHealth vdb llm, msg))).llm = llm ∧
    (checkStatus (some (filesHealth vdb llm, msg))).message = msg ∧
    checkStatus none =
      SystemStatus.mk false false false "Status check failed" := by
  cases vdb <;> cases llm <;>
    exact ⟨rfl, rfl, rfl, rfl, rfl⟩

/-- C6 counterexample: the claim asserts that a response whose context
count is zero is still displayed with an explicit zero-context
indication; but the render condition of the sources badge
(`rag-frontend/src/App.tsx` line 234) requires `contextCount > 0`, so
the assistant message built from a zero-context response is rendered
with no context indication at all. -/
theorem zero_context_shows_no_badge :
    showsSourcesBadge (mkAssistantMessage "I could not find relevant context." 0) = false := by
  rfl

/-- C6 as amended: every query response message carries both the answer
text and the context count, and the sources badge is rendered exactly
when the context count is positive — a zero-context response is
displayed as a bare answer without a context indication. -/
theorem assistant_message_carries_answer_and_count (answer : String) (n : Nat) :
    (mkAssistantMessage answer n).content = answer ∧
    (mkAssistantMessage answer n).contextCount = some n ∧
    showsSourcesBadge (mkAssistantMessage answer n) = decide (0 < n) :=
  ⟨rfl, rfl, rfl⟩

/-- C7: a successful ingestion response updates exactly the entries
bearing the uploaded file's temporary id — setting success status, the
returned chunk count and file identifier — and a failed one updates
exactly those entries to error status with the message recorded; every
entry with a different id is untouched, lengths are preserved, and
nothing else appears in the list. -/
theorem upload_result_updates_only_target (l : List UploadedFile)
    (tempId : String) (tc : Option Nat) (fid : String) (emsg : Option String) :
    (applyUploadSuccess tempId tc fid l).length = l.length ∧
    (applyUploadError tempId emsg l).length = l.length ∧
    (∀ f ∈ l, f.id ≠ tempId →
      f ∈ applyUploadSuccess tempId tc fid l ∧ f ∈ applyUploadError tempId emsg l) ∧
    (∀ f ∈ l, f.id = tempId →
      { f with status := FileStatus.success, chunks := tc.getD 0,
               fileId := some fid } ∈ applyUploadSuccess tempId tc fid l ∧
      { f with status := FileStatus.error,
               error := some (emsg.getD "Upload failed") } ∈ applyUploadError tempId emsg l) ∧
    (∀ g ∈ applyUploadSuccess tempId tc fid l,
      (g ∈ l ∧ g.id ≠ tempId) ∨
      ∃ f ∈ l, f.id = tempId ∧
        g = { f with status := FileStatus.success, chunks := tc.getD 0,
                     fileId := some fid }) := by
  refine ⟨?_, ?_, ?_, ?_, ?_⟩
  · exact List.length_map l _
  · exact List.length_map l _
  · intro f hf hne
    constructor
    · refine List.mem_map.mpr ⟨f, hf, ?_⟩
      rw [if_neg hne]
    · refine List.mem_map.mpr ⟨f, hf, ?_⟩
      rw [if_neg hne]
  · intro f hf heq
    constructor
    · refine List.mem_map.mpr ⟨f, hf, ?_⟩
      rw [if_pos heq]
    · refine List.mem_map.mpr ⟨f, hf, ?_⟩
      rw [if_pos heq]
  · intro g hg
    obtain ⟨f, hf, hfg⟩ := List.mem_map.mp hg
    by_cases heq : f.id = tempId
    · rw [if_pos heq] at hfg
      exact Or.inr ⟨f, hf, heq, hfg.symm⟩
    · rw [if_neg heq] at hfg
      rw [← hfg]
      exact Or.inl ⟨hf, heq⟩

/-- Witness for C7 on a concrete two-entry list: the matching entry is
updated to success with the reported chunk count and file id, the other
entry is untouched. -/
theorem upload_result_updates_witness :
    UploadedFile.mk "t1" "a.pdf" 10 FileStatus.success 5 (some "file-9") none ∈
      applyUploadSuccess "t1" (some 5) "file-9"
        [UploadedFile.mk "t1" "a.pdf" 10 FileStatus.pending 0 none none,
         UploadedFile.mk "t2" "b.pdf" 20 FileStatus.pending 0 none none] ∧
    UploadedFile.mk "t2" "b.pdf" 20 FileStatus.pending 0 none none ∈
      applyUploadSuccess "t1" (some 5) "file-9"
        [UploadedFile.mk "t1" "a.pdf" 10 FileStatus.pending 0 none none,
         UploadedFile.mk "t2" "b.pdf" 20 FileStatus.pending 0 none none] :=
  ⟨((upload_result_updates_only_target
      [UploadedFile.mk "t1" "a.pdf" 10 FileStatus.pending 0 none none,
       UploadedFile.mk "t2" "b.pdf" 20 FileStatus.pending 0 none none]
      "t1" (some 5) "file-9" none).2.2.2.1
      (UploadedFile.mk "t1" "a.pdf" 10 FileStatus.pending 0 none none)
      (by decide) (by decide)).1,
   ((upload_result_updates_only_target
      [UploadedFile.mk "t1" "a.pdf" 10 FileStatus.pending 0 none none,
       UploadedFile.mk "t2" "b.pdf" 20 FileStatus.pending 0 none none]
      "t1" (some 5) "file-9" none).2.2.1
      (UploadedFile.mk "t2" "b.pdf" 20 FileStatus.pending 0 none none)
      (by decide) (by decide)).1⟩

/-- C8: the upload handler of `rag-frontend/src/App.tsx` filters the
selected files to MIME type `application/pdf` before creating list
entries and issuing upload requests, so a selected CSV file — which the
repository's own README ("Use Upload tab to add PDFs or CSV files") and
`CSV_UPLOAD_GUIDE.md` document as supported — produces no entry and no
request, while a PDF of the same selection produces exactly one
uploading entry. -/
theorem csv_upload_filtered_out :
    newUploadEntries [BrowserFile.mk "medical_conditions.csv" "text/csv" 2600] = [] ∧
    newUploadEntries [BrowserFile.mk "paper.pdf" "application/pdf" 1000] =
      [RagUploadEntry.mk "paper.pdf" 1000 RagFileStatus.uploading] := by
  exact ⟨rfl, rfl⟩

/-- C9: submitting the chat form with an input that is empty or
whitespace-only, or while a previous query is still loading, is a
no-op in both frontends: the state (message list, input, loading flag)
is unchanged and no network request is issued. -/
theorem chat_submit_guard_noop (s : RagChatState) (t : FrontChatState)
    (hs : trimChars s.input = [] ∨ s.isLoading = true)
    (ht : trimChars t.chatInput = [] ∨ t.isChatLoading = true) :
    handleSubmit s = (s, none) ∧ chatFormSubmit t = (t, none) := by
  constructor
  · unfold handleSubmit
    rw [if_pos hs]
  · rcases ht with h | h
    · by_cases hl : t.isChatLoading = true
      · unfold chatFormSubmit
        rw [if_pos hl]
      · unfold chatFormSubmit
        rw [if_neg hl]
        unfold handleChatSubmit
        rw [if_pos h]
    · unfold chatFormSubmit
      rw [if_pos h]

/-- Witness for C9: a whitespace-only input in the rag-frontend chat
and a loading frontend chat. -/
theorem chat_submit_guard_witness :
    handleSubmit (RagChatState.mk "   ".data false []) =
      (RagChatState.mk "   ".data false [], none) ∧
    chatFormSubmit (FrontChatState.mk "hi".data true []) =
      (FrontChatState.mk "hi".data true [], none) :=
  chat_submit_guard_noop (RagChatState.mk "   ".data false [])
    (FrontChatState.mk "hi".data true [])
    (Or.inl (by decide)) (Or.inr rfl)

/-- The integer-logarithm model of the unit index agrees with the
floating-point expression of the source, read as exact real arithmetic:
for every byte count, the floor of `Math.log bytes / Math.log 1024` is
`Nat.log 1024 bytes`. -/
theorem unitIndex_eq_floor_logb (bytes : Nat) :
    ⌊Real.logb (1024 : Nat) (bytes : Nat)⌋ = (unitIndex bytes : Int) := by
  rw [Real.floor_logb_natCast (Nat.cast_nonneg bytes), Int.log_natCast]
  rfl

/-- C10: `formatFileSize 0` is the string `"0 Bytes"`, and for every
byte count in `[1, 1024^4)` the computed unit index lies within the
bounds of the four-element unit array, so the formatted string ends in
one of the units `Bytes`, `KB`, `MB`, `GB`. -/
theorem formatFileSize_zero_and_unit_in_bounds :
    formatFileSize 0 = "0 Bytes" ∧
    ∀ bytes : Nat, 1 ≤ bytes → bytes < 1024 ^ 4 →
      unitIndex bytes < fileSizeUnits.length ∧
      ∃ u ∈ fileSizeUnits,
        formatFileSize bytes =
          toString (sizeMantissa bytes (unitIndex bytes)) ++ " " ++ u := by
  constructor
  · rfl
  · intro bytes h1 h2
    have hne : bytes ≠ 0 := by omega
    have hlog : Nat.log 1024 bytes < 4 := Nat.log_lt_of_lt_pow hne h2
    have hlen : unitIndex bytes < fileSizeUnits.length := hlog
    refine ⟨hlen, fileSizeUnits.getD (unitIndex bytes) "", ?_, ?_⟩
    · rw [List.getD_eq_getElem fileSizeUnits "" hlen]
      exact List.getElem_mem hlen
    · unfold formatFileSize
      rw [if_neg hne]

/-- Witness for C10 at 5000 bytes (unit index 1, "KB"). -/
theorem formatFileSize_witness :
    unitIndex 5000 < fileSizeUnits.length ∧
    ∃ u ∈ fileSizeUnits,
      formatFileSize 5000 =
        toString (sizeMantissa 5000 (unitIndex 5000)) ++ " " ++ u :=
  formatFileSize_zero_and_unit_in_bounds.2 5000 (by decide) (by decide)
